import Mathlib

/-!
Verification of the `vmm` linear-algebra crate: fixed-size vectors `VecN<T, N>`
and square matrices `MatN<T, N>` with element-wise arithmetic, dot/cross/length/
normalize, and affine transform builders (translate / rotate / scale).

Embedding conventions:
* a vector `VecN<T, N>` is a function `Fin n → R`; a matrix `MatN<T, N>` is a
  function `Fin n → VecN R n` (row-major, exactly as in the source where a
  matrix stores `N` row vectors);
* the scalar type `T` is modelled by a commutative ring `R`; `T::default()`
  is `0` and the `From<i32>` image of the literal `1` is `1`;
* operations whose source math is irreducibly floating-point (`length`,
  `normalize`, the trig in `rotate`) are modelled at `R = ℝ`, with both `T`
  and `f64` identified with `ℝ` so the `Into`/`From` conversions are the
  identity;
* source loops that write into a freshly created result are embedded as
  `List.foldl` over `List.finRange n` (the index list `0, 1, …, n-1` in
  increasing order) with `Function.update` for the indexed writes, so the
  initialisation value and the iteration order of the source are preserved.
-/

namespace VMM

/-- Vectors `VecN<T, N>` (src/types/vectors.rs): the payload `data : [T; N]`
is modelled as a function `Fin n → R`. -/
abbrev VecN (R : Type) (n : ℕ) : Type := Fin n → R

/-- Matrices `MatN<T, N>` (src/types/matrices.rs): the payload
`data : [VecN<T, N>; N]` of row vectors, modelled as `Fin n → VecN R n`. -/
abbrev MatN (R : Type) (n : ℕ) : Type := Fin n → VecN R n

variable {R : Type} [CommRing R] {n : ℕ}

/-- Source `VecN::new`: every element is `T::default()`, i.e. `0`. -/
def VecN.new : VecN R n := fun _ => 0

/-- Source `VecN::from_array`: copies the caller's array (`data: *data`). -/
def VecN.from_array (data : Fin n → R) : VecN R n := fun i => data i

/-- Source `VecN::to_arr`: returns (a reference to) the underlying array. -/
def VecN.to_arr (v : VecN R n) : Fin n → R := v

/-- Source `Add::add for VecN`: the loop over `zip` adds element-wise. -/
def VecN.add (self rhs : VecN R n) : VecN R n := fun i => self i + rhs i

/-- Source `Sub::sub for VecN`: the loop over `zip` subtracts element-wise. -/
def VecN.sub (self rhs : VecN R n) : VecN R n := fun i => self i - rhs i

/-- Source `Vec3::cross` (src/types/vectors.rs lines 365-373): the literal
three-element result array. -/
def VecN.cross (self other : VecN R 3) : VecN R 3 :=
  ![self 1 * other 2 - self 2 * other 1,
    self 2 * other 0 - self 0 * other 2,
    self 0 * other 1 - self 1 * other 0]

/-- Source `VecMath::length for VecN` (src/types/vectors/math.rs lines
134-144): map each element to its square, `sum` the iterator (in index
order, starting from `0`), then `sqrrt` (= `f64::sqrt`, modelled by
`Real.sqrt`). -/
noncomputable def VecN.length (v : VecN ℝ n) : ℝ :=
  Real.sqrt (((List.finRange n).map (fun i => v i * v i)).sum)

/-- Source `Normalize::normalize for VecN` (src/types/vectors/math.rs lines
188-199): compute `len = self.length()` once, then divide every element by
it — no special case for a zero length. -/
noncomputable def VecN.normalize (v : VecN ℝ n) : VecN ℝ n :=
  let len := VecN.length v
  fun i => v i / len

/-- Source `MatN::new`: every row is a default `VecN`, i.e. all zeros. -/
def MatN.new : MatN R n := fun _ => VecN.new

/-- Source `Identity::identity for MatN` (src/types/matrices.rs lines
309-321): start from `MatN::new()` and write `one = T::from(1)` at `[i][i]`
for `i = 0, …, N-1`. -/
def MatN.identity : MatN R n :=
  (List.finRange n).foldl
    (fun result i => Function.update result i (Function.update (result i) i 1))
    MatN.new

/-- Source `Mul::mul for MatN` (src/types/matrices.rs lines 400-414): triple
loop; cell `[i][j]` starts at the default value it got from `MatN::new()`
and accumulates `self[i][k] * rhs[k][j]` for `k` increasing. -/
def MatN.mul (self rhs : MatN R n) : MatN R n :=
  fun i j =>
    (List.finRange n).foldl (fun acc k => acc + self i k * rhs k j)
      (MatN.new (R := R) i j)

/-- Source `MatVecMath::mul_mat_vec for MatN` (src/types/matrices.rs lines
424-437): `result[i]` starts at the default from `VecN::new()` and
accumulates `vec[j] * self[i][j]` (note the source multiplies in this
order) for `j` increasing. -/
def MatN.mul_mat_vec (self : MatN R n) (vec : VecN R n) : VecN R n :=
  fun i =>
    (List.finRange n).foldl (fun acc j => acc + vec j * self i j)
      (VecN.new (R := R) i)

/-- Source `MatN::from_mat` (src/types/matrices.rs lines 157-167): start
from `MatN::new()` and overwrite row `i` with `VecN::from_array(&data[i])`
for each `i` in order. -/
def MatN.from_mat (data : Fin n → Fin n → R) : MatN R n :=
  (List.finRange n).foldl
    (fun result i => Function.update result i (VecN.from_array (data i)))
    MatN.new

/-- Source `MatN::to_mat` (src/types/matrices.rs lines 217-227): start from
the all-default raw array `[[T::default(); N]; N]` and overwrite row `i`
with a clone of `self[i].to_arr()` for each `i` in order. -/
def MatN.to_mat (self : MatN R n) : Fin n → Fin n → R :=
  (List.finRange n).foldl
    (fun result i => Function.update result i (VecN.to_arr (self i)))
    (fun _ _ => 0)

/- Generic lemmas about the loop embeddings. -/

/-- Folding `acc + f k` over a list starting from `a` is `a` plus the sum of
the mapped list. -/
theorem foldl_add_eq_sum {β : Type} (l : List β) (f : β → R) (a : R) :
    l.foldl (fun acc k => acc + f k) a = a + (l.map f).sum := by
  induction l generalizing a with
  | nil => simp
  | cons k t ih => simp [ih, add_assoc]

/-- A fold that overwrites slot `k` with `f k` for every `k` in `l` yields
`f i` at every index `i ∈ l`, and the initial value elsewhere. -/
theorem foldl_update_apply {α : Type} (f : Fin n → α) (l : List (Fin n))
    (g : Fin n → α) (i : Fin n) :
    (l.foldl (fun r k => Function.update r k (f k)) g) i
      = if i ∈ l then f i else g i := by
  induction l generalizing g with
  | nil => simp
  | cons k t ih =>
    simp only [List.foldl_cons, ih, List.mem_cons]
    by_cases hit : i ∈ t
    · simp [hit]
    · by_cases hik : i = k
      · subst hik
        simp [hit, Function.update_apply]
      · simp [hit, hik, Function.update_apply]

/-- The diagonal-writing fold of `identity`: index `[i][j]` becomes `1`
when `i ∈ l` and `i = j`, and keeps the initial value otherwise. -/
theorem foldl_diag_update_apply (l : List (Fin n)) (g : MatN R n)
    (i j : Fin n) :
    (l.foldl (fun r k => Function.update r k (Function.update (r k) k 1)) g) i j
      = if i ∈ l ∧ i = j then 1 else g i j := by
  induction l generalizing g with
  | nil => simp
  | cons k t ih =>
    simp only [List.foldl_cons, ih, List.mem_cons]
    by_cases hij : i = j
    · subst hij
      by_cases hit : i ∈ t
      · simp [hit]
      · by_cases hik : i = k
        · subst hik
          simp [hit, Function.update_apply]
        · simp [hit, hik, Function.update_apply]
    · by_cases hik : i = k
      · subst hik
        have hjk : ¬ j = i := fun h => hij h.symm
        simp [hij, Function.update_apply, hjk]
      · simp [hij, hik, Function.update_apply]

/-- Entry description of the embedded `identity`. -/
theorem identity_apply (i j : Fin n) :
    (MatN.identity : MatN R n) i j = if i = j then 1 else 0 := by
  unfold MatN.identity
  rw [foldl_diag_update_apply]
  simp [List.mem_finRange, MatN.new, VecN.new]

/-- The embedded matrix product agrees with the mathematical sum formula. -/
theorem mul_apply (a b : MatN R n) (i j : Fin n) :
    MatN.mul a b i j = ∑ k, a i k * b k j := by
  unfold MatN.mul
  rw [foldl_add_eq_sum]
  simp [MatN.new, VecN.new, Fin.sum_univ_def]

/-- The embedded matrix-vector product agrees with the sum formula (the
source multiplies `vec[j] * self[i][j]`; the scalars commute). -/
theorem mul_mat_vec_apply (m : MatN R n) (vec : VecN R n) (i : Fin n) :
    MatN.mul_mat_vec m vec i = ∑ j, m i j * vec j := by
  unfold MatN.mul_mat_vec
  rw [foldl_add_eq_sum]
  simp [VecN.new, Fin.sum_univ_def, mul_comm]

/- Transform builders (src/types/matrices.rs, impls of MatTransforms for
Mat3 = MatN<T, 3> and Mat4 = MatN<T, 4>). Each `result[i][j] = e` write of
the source is a `Function.update` of row `i` at column `j`. `self` is a
parameter of every builder exactly as in the source, even where the source
never reads it. -/

/-- Source `MatTransforms::translate for Mat3` (lines 452-459): start from
`Mat3::identity()`, then `result[0][2] = vec[0]; result[1][2] = vec[1]`. -/
def Mat3.translate (self : MatN R 3) (vec : VecN R 2) : MatN R 3 :=
  let result : MatN R 3 := MatN.identity
  let result := Function.update result 0 (Function.update (result 0) 2 (vec 0))
  let result := Function.update result 1 (Function.update (result 1) 2 (vec 1))
  result

/-- Source `MatTransforms::scale for Mat3` (lines 493-502): start from
`Mat3::identity()`, then `result[0][0] = values[0]; result[1][1] =
values[1]; result[2][2] = values[2]`. -/
def Mat3.scale (self : MatN R 3) (values : VecN R 3) : MatN R 3 :=
  let result : MatN R 3 := MatN.identity
  let result := Function.update result 0 (Function.update (result 0) 0 (values 0))
  let result := Function.update result 1 (Function.update (result 1) 1 (values 1))
  let result := Function.update result 2 (Function.update (result 2) 2 (values 2))
  result

/-- Source `MatTransforms::translate for Mat4` (lines 512-520): start from
`Mat4::identity()`, then `result[i][3] = vec[i]` for `i = 0, 1, 2`. -/
def Mat4.translate (self : MatN R 4) (vec : VecN R 3) : MatN R 4 :=
  let result : MatN R 4 := MatN.identity
  let result := Function.update result 0 (Function.update (result 0) 3 (vec 0))
  let result := Function.update result 1 (Function.update (result 1) 3 (vec 1))
  let result := Function.update result 2 (Function.update (result 2) 3 (vec 2))
  result

/-- Source `MatTransforms::scale for Mat4` (lines 554-563): start from
`Mat4::identity()`, then `result[i][i] = values[i]` for `i = 0, 1, 2`
(index `[3][3]` is left at the identity value `1`). -/
def Mat4.scale (self : MatN R 4) (values : VecN R 3) : MatN R 4 :=
  let result : MatN R 4 := MatN.identity
  let result := Function.update result 0 (Function.update (result 0) 0 (values 0))
  let result := Function.update result 1 (Function.update (result 1) 1 (values 1))
  let result := Function.update result 2 (Function.update (result 2) 2 (values 2))
  result

/-- The `x_mat` of `MatTransforms::rotate for Mat3` (lines 473-477): start
from identity, then `x_mat[1][1] = x_cos; x_mat[1][2] = -x_sin;
x_mat[2][1] = x_sin; x_mat[2][2] = x_cos`. -/
def Mat3.rotate_x_mat (x_cos x_sin : R) : MatN R 3 :=
  let x_mat : MatN R 3 := MatN.identity
  let x_mat := Function.update x_mat 1 (Function.update (x_mat 1) 1 x_cos)
  let x_mat := Function.update x_mat 1 (Function.update (x_mat 1) 2 (-x_sin))
  let x_mat := Function.update x_mat 2 (Function.update (x_mat 2) 1 x_sin)
  let x_mat := Function.update x_mat 2 (Function.update (x_mat 2) 2 x_cos)
  x_mat

/-- The `y_mat` of `MatTransforms::rotate for Mat3` (lines 479-483):
`y_mat[0][0] = y_cos; y_mat[0][2] = y_sin; y_mat[2][0] = -y_sin;
y_mat[2][2] = y_cos` over identity. -/
def Mat3.rotate_y_mat (y_cos y_sin : R) : MatN R 3 :=
  let y_mat : MatN R 3 := MatN.identity
  let y_mat := Function.update y_mat 0 (Function.update (y_mat 0) 0 y_cos)
  let y_mat := Function.update y_mat 0 (Function.update (y_mat 0) 2 y_sin)
  let y_mat := Function.update y_mat 2 (Function.update (y_mat 2) 0 (-y_sin))
  let y_mat := Function.update y_mat 2 (Function.update (y_mat 2) 2 y_cos)
  y_mat

/-- The `z_mat` of `MatTransforms::rotate for Mat3` (lines 485-489):
`z_mat[0][0] = z_cos; z_mat[0][1] = -z_sin; z_mat[1][0] = z_sin;
z_mat[1][1] = z_cos` over identity. -/
def Mat3.rotate_z_mat (z_cos z_sin : R) : MatN R 3 :=
  let z_mat : MatN R 3 := MatN.identity
  let z_mat := Function.update z_mat 0 (Function.update (z_mat 0) 0 z_cos)
  let z_mat := Function.update z_mat 0 (Function.update (z_mat 0) 1 (-z_sin))
  let z_mat := Function.update z_mat 1 (Function.update (z_mat 1) 0 z_sin)
  let z_mat := Function.update z_mat 1 (Function.update (z_mat 1) 1 z_cos)
  z_mat

/-- Source `MatTransforms::rotate for Mat3` (lines 460-492): per-axis angles
`axis[c].into() * angle`, their cosines and sines computed in `f64`
(modelled by `ℝ`) and converted back into `T` (the identity here), the
three elementary matrices built over identity, and the final product
`*self * (x_mat * y_mat * z_mat)`. -/
noncomputable def Mat3.rotate (self : MatN ℝ 3) (angle : ℝ) (axis : VecN ℝ 3) :
    MatN ℝ 3 :=
  let x_angle : ℝ := axis 0 * angle
  let y_angle : ℝ := axis 1 * angle
  let z_angle : ℝ := axis 2 * angle
  let x_cos : ℝ := Real.cos x_angle
  let x_sin : ℝ := Real.sin x_angle
  let y_cos : ℝ := Real.cos y_angle
  let y_sin : ℝ := Real.sin y_angle
  let z_cos : ℝ := Real.cos z_angle
  let z_sin : ℝ := Real.sin z_angle
  MatN.mul self
    (MatN.mul (MatN.mul (Mat3.rotate_x_mat x_cos x_sin) (Mat3.rotate_y_mat y_cos y_sin))
      (Mat3.rotate_z_mat z_cos z_sin))

/-- The `x_mat` of `MatTransforms::rotate for Mat4` (lines 534-538): same
four writes as the Mat3 case, inside a 4-by-4 identity. -/
def Mat4.rotate_x_mat (x_cos x_sin : R) : MatN R 4 :=
  let x_mat : MatN R 4 := MatN.identity
  let x_mat := Function.update x_mat 1 (Function.update (x_mat 1) 1 x_cos)
  let x_mat := Function.update x_mat 1 (Function.update (x_mat 1) 2 (-x_sin))
  let x_mat := Function.update x_mat 2 (Function.update (x_mat 2) 1 x_sin)
  let x_mat := Function.update x_mat 2 (Function.update (x_mat 2) 2 x_cos)
  x_mat

/-- The `y_mat` of `MatTransforms::rotate for Mat4` (lines 540-544). -/
def Mat4.rotate_y_mat (y_cos y_sin : R) : MatN R 4 :=
  let y_mat : MatN R 4 := MatN.identity
  let y_mat := Function.update y_mat 0 (Function.update (y_mat 0) 0 y_cos)
  let y_mat := Function.update y_mat 0 (Function.update (y_mat 0) 2 y_sin)
  let y_mat := Function.update y_mat 2 (Function.update (y_mat 2) 0 (-y_sin))
  let y_mat := Function.update y_mat 2 (Function.update (y_mat 2) 2 y_cos)
  y_mat

/-- The `z_mat` of `MatTransforms::rotate for Mat4` (lines 546-550). -/
def Mat4.rotate_z_mat (z_cos z_sin : R) : MatN R 4 :=
  let z_mat : MatN R 4 := MatN.identity
  let z_mat := Function.update z_mat 0 (Function.update (z_mat 0) 0 z_cos)
  let z_mat := Function.update z_mat 0 (Function.update (z_mat 0) 1 (-z_sin))
  let z_mat := Function.update z_mat 1 (Function.update (z_mat 1) 0 z_sin)
  let z_mat := Function.update z_mat 1 (Function.update (z_mat 1) 1 z_cos)
  z_mat

/-- Source `MatTransforms::rotate for Mat4` (lines 521-552): identical
structure to the Mat3 case with 4-by-4 elementary matrices. -/
noncomputable def Mat4.rotate (self : MatN ℝ 4) (angle : ℝ) (axis : VecN ℝ 3) :
    MatN ℝ 4 :=
  let x_angle : ℝ := axis 0 * angle
  let y_angle : ℝ := axis 1 * angle
  let z_angle : ℝ := axis 2 * angle
  let x_cos : ℝ := Real.cos x_angle
  let x_sin : ℝ := Real.sin x_angle
  let y_cos : ℝ := Real.cos y_angle
  let y_sin : ℝ := Real.sin y_angle
  let z_cos : ℝ := Real.cos z_angle
  let z_sin : ℝ := Real.sin z_angle
  MatN.mul self
    (MatN.mul (MatN.mul (Mat4.rotate_x_mat x_cos x_sin) (Mat4.rotate_y_mat y_cos y_sin))
      (Mat4.rotate_z_mat z_cos z_sin))

/- Spec-side elementary rotation matrices, written as the specification
describes them: equal to identity except for a 2-by-2 cosine/sine block in
the two coordinates the axis rotates. These are deliberately written from
the spec text, to be compared against the builders embedded from the
source. -/

/-- Spec-side Rx for a 3-by-3 matrix: identity except the cosine/sine block
in rows/columns 1, 2. -/
noncomputable def rotX3Spec (θ : ℝ) : MatN ℝ 3 :=
  ![![1, 0, 0],
    ![0, Real.cos θ, -Real.sin θ],
    ![0, Real.sin θ, Real.cos θ]]

/-- Spec-side Ry for a 3-by-3 matrix: identity except the cosine/sine block
in rows/columns 0, 2. -/
noncomputable def rotY3Spec (θ : ℝ) : MatN ℝ 3 :=
  ![![Real.cos θ, 0, Real.sin θ],
    ![0, 1, 0],
    ![-Real.sin θ, 0, Real.cos θ]]

/-- Spec-side Rz for a 3-by-3 matrix: identity except the cosine/sine block
in rows/columns 0, 1. -/
noncomputable def rotZ3Spec (θ : ℝ) : MatN ℝ 3 :=
  ![![Real.cos θ, -Real.sin θ, 0],
    ![Real.sin θ, Real.cos θ, 0],
    ![0, 0, 1]]

/-- Spec-side Rx for a 4-by-4 matrix. -/
noncomputable def rotX4Spec (θ : ℝ) : MatN ℝ 4 :=
  ![![1, 0, 0, 0],
    ![0, Real.cos θ, -Real.sin θ, 0],
    ![0, Real.sin θ, Real.cos θ, 0],
    ![0, 0, 0, 1]]

/-- Spec-side Ry for a 4-by-4 matrix. -/
noncomputable def rotY4Spec (θ : ℝ) : MatN ℝ 4 :=
  ![![Real.cos θ, 0, Real.sin θ, 0],
    ![0, 1, 0, 0],
    ![-Real.sin θ, 0, Real.cos θ, 0],
    ![0, 0, 0, 1]]

/-- Spec-side Rz for a 4-by-4 matrix. -/
noncomputable def rotZ4Spec (θ : ℝ) : MatN ℝ 4 :=
  ![![Real.cos θ, -Real.sin θ, 0, 0],
    ![Real.sin θ, Real.cos θ, 0, 0],
    ![0, 0, 1, 0],
    ![0, 0, 0, 1]]

/- Entry descriptions of the builders, proved by exhausting the finitely
many index pairs. -/

/-- The embedded Mat3 `x_mat` builder equals the spec-side Rx matrix. -/
theorem rotate_x_mat3_eq_spec (θ : ℝ) :
    Mat3.rotate_x_mat (Real.cos θ) (Real.sin θ) = rotX3Spec θ := by
  funext i j
  fin_cases i <;> fin_cases j <;>
    simp [Mat3.rotate_x_mat, rotX3Spec, Function.update_apply, identity_apply,
      Matrix.cons_val_zero, Matrix.cons_val_one, Matrix.head_cons,
      Matrix.cons_val_succ, Matrix.vecHead, Matrix.vecTail]

/-- The embedded Mat3 `y_mat` builder equals the spec-side Ry matrix. -/
theorem rotate_y_mat3_eq_spec (θ : ℝ) :
    Mat3.rotate_y_mat (Real.cos θ) (Real.sin θ) = rotY3Spec θ := by
  funext i j
  fin_cases i <;> fin_cases j <;>
    simp [Mat3.rotate_y_mat, rotY3Spec, Function.update_apply, identity_apply,
      Matrix.cons_val_zero, Matrix.cons_val_one, Matrix.head_cons,
      Matrix.cons_val_succ, Matrix.vecHead, Matrix.vecTail]

/-- The embedded Mat3 `z_mat` builder equals the spec-side Rz matrix. -/
theorem rotate_z_mat3_eq_spec (θ : ℝ) :
    Mat3.rotate_z_mat (Real.cos θ) (Real.sin θ) = rotZ3Spec θ := by
  funext i j
  fin_cases i <;> fin_cases j <;>
    simp [Mat3.rotate_z_mat, rotZ3Spec, Function.update_apply, identity_apply,
      Matrix.cons_val_zero, Matrix.cons_val_one, Matrix.head_cons,
      Matrix.cons_val_succ, Matrix.vecHead, Matrix.vecTail]

/-- The embedded Mat4 `x_mat` builder equals the spec-side Rx matrix. -/
theorem rotate_x_mat4_eq_spec (θ : ℝ) :
    Mat4.rotate_x_mat (Real.cos θ) (Real.sin θ) = rotX4Spec θ := by
  funext i j
  fin_cases i <;> fin_cases j <;>
    simp [Mat4.rotate_x_mat, rotX4Spec, Function.update_apply, identity_apply,
      Matrix.cons_val_zero, Matrix.cons_val_one, Matrix.head_cons,
      Matrix.cons_val_succ, Matrix.vecHead, Matrix.vecTail]

/-- The embedded Mat4 `y_mat` builder equals the spec-side Ry matrix. -/
theorem rotate_y_mat4_eq_spec (θ : ℝ) :
    Mat4.rotate_y_mat (Real.cos θ) (Real.sin θ) = rotY4Spec θ := by
  funext i j
  fin_cases i <;> fin_cases j <;>
    simp [Mat4.rotate_y_mat, rotY4Spec, Function.update_apply, identity_apply,
      Matrix.cons_val_zero, Matrix.cons_val_one, Matrix.head_cons,
      Matrix.cons_val_succ, Matrix.vecHead, Matrix.vecTail]

/-- The embedded Mat4 `z_mat` builder equals the spec-side Rz matrix. -/
theorem rotate_z_mat4_eq_spec (θ : ℝ) :
    Mat4.rotate_z_mat (Real.cos θ) (Real.sin θ) = rotZ4Spec θ := by
  funext i j
  fin_cases i <;> fin_cases j <;>
    simp [Mat4.rotate_z_mat, rotZ4Spec, Function.update_apply, identity_apply,
      Matrix.cons_val_zero, Matrix.cons_val_one, Matrix.head_cons,
      Matrix.cons_val_succ, Matrix.vecHead, Matrix.vecTail]

/- Claim theorems. -/

/-- C2: for both specializations, `translate(self, vec)` equals the identity
matrix with the translation slots `[i][N-1]` of the top `N-1` rows set to
the components of `vec`; `self` never enters, so the result is the same for
every `self`. -/
theorem translate_matches_claim (self3 : MatN R 3) (self4 : MatN R 4)
    (vec2 : VecN R 2) (vec3 : VecN R 3) :
    (∀ i j, Mat3.translate self3 vec2 i j
        = if h : (i : ℕ) < 2 ∧ (j : ℕ) = 2 then vec2 ⟨i, h.1⟩
          else if i = j then 1 else 0)
    ∧ (∀ i j, Mat4.translate self4 vec3 i j
        = if h : (i : ℕ) < 3 ∧ (j : ℕ) = 3 then vec3 ⟨i, h.1⟩
          else if i = j then 1 else 0)
    ∧ (∀ self', Mat3.translate self3 vec2 = Mat3.translate self' vec2)
    ∧ (∀ self', Mat4.translate self4 vec3 = Mat4.translate self' vec3) := by
  refine ⟨?_, ?_, fun self' => rfl, fun self' => rfl⟩
  · intro i j
    fin_cases i <;> fin_cases j <;>
      simp [Mat3.translate, Function.update_apply, identity_apply]
  · intro i j
    fin_cases i <;> fin_cases j <;>
      simp [Mat4.translate, Function.update_apply, identity_apply]

/-- C1 counterexample: the claim asserts that the homogeneous diagonal entry
of a `scale` result stays `1`, but for Mat3 the source writes
`result[2][2] = values[2]`: with `values = [2, 3, 4]` the entry `[2][2]` of
`scale` is `4`, not `1`. -/
theorem scale_claim_counterexample :
    ¬ (Mat3.scale (MatN.identity : MatN ℤ 3) ![2, 3, 4]) 2 2 = 1 := by
  decide

/-- C1 amended: `scale` starts from identity and sets the diagonal entries
`[0][0]`, `[1][1]`, `[2][2]` to the components of `values`; for Mat4 the
homogeneous entry `[3][3]` stays `1`, while for Mat3 the homogeneous entry
`[2][2]` is overwritten with `values[2]`; the result never involves `self`. -/
theorem scale_matches_amended_claim (self3 : MatN R 3) (self4 : MatN R 4)
    (values : VecN R 3) :
    (∀ i j, Mat3.scale self3 values i j = if i = j then values i else 0)
    ∧ (∀ i j, Mat4.scale self4 values i j
        = if h : (i : ℕ) < 3 ∧ i = j then values ⟨i, h.1⟩
          else if i = j then 1 else 0)
    ∧ (∀ self', Mat3.scale self3 values = Mat3.scale self' values)
    ∧ (∀ self', Mat4.scale self4 values = Mat4.scale self' values) := by
  refine ⟨?_, ?_, fun self' => rfl, fun self' => rfl⟩
  · intro i j
    fin_cases i <;> fin_cases j <;>
      simp [Mat3.scale, Function.update_apply, identity_apply]
  · intro i j
    fin_cases i <;> fin_cases j <;>
      simp [Mat4.scale, Function.update_apply, identity_apply]

/-- C3: for both specializations, `rotate(self, angle, axis)` equals
`self * (Rx * Ry * Rz)` where Rx, Ry, Rz are the elementary rotation
matrices (identity except a 2-by-2 cosine/sine block) with angles
`axis[0]*angle`, `axis[1]*angle`, `axis[2]*angle`, the trigonometry
computed in the 64-bit float domain (modelled by `ℝ`). -/
theorem rotate_matches_spec (self3 : MatN ℝ 3) (self4 : MatN ℝ 4)
    (angle : ℝ) (axis : VecN ℝ 3) :
    Mat3.rotate self3 angle axis
      = MatN.mul self3
          (MatN.mul
            (MatN.mul (rotX3Spec (axis 0 * angle)) (rotY3Spec (axis 1 * angle)))
            (rotZ3Spec (axis 2 * angle)))
    ∧ Mat4.rotate self4 angle axis
      = MatN.mul self4
          (MatN.mul
            (MatN.mul (rotX4Spec (axis 0 * angle)) (rotY4Spec (axis 1 * angle)))
            (rotZ4Spec (axis 2 * angle))) := by
  constructor
  · simp only [Mat3.rotate]
    rw [rotate_x_mat3_eq_spec, rotate_y_mat3_eq_spec, rotate_z_mat3_eq_spec]
  · simp only [Mat4.rotate]
    rw [rotate_x_mat4_eq_spec, rotate_y_mat4_eq_spec, rotate_z_mat4_eq_spec]

/-- C4: every cell of the embedded matrix product (whose accumulator starts
at the default value `0` and adds the terms in increasing `k` order) equals
the sum over `k` of `self[i][k] * rhs[k][j]`. -/
theorem mul_matches_sum_formula (a b : MatN R n) (i j : Fin n) :
    MatN.mul a b i j = ∑ k, a i k * b k j :=
  mul_apply a b i j

/-- C5: the embedded `identity()` (1 on the main diagonal, default 0
elsewhere) is a two-sided unit for the embedded matrix product. -/
theorem mul_identity_left_right (M : MatN R n) :
    MatN.mul M MatN.identity = M ∧ MatN.mul MatN.identity M = M := by
  constructor <;> funext i j <;> rw [mul_apply] <;>
    simp [identity_apply, mul_ite, ite_mul, mul_one, mul_zero, one_mul,
      zero_mul, Finset.sum_ite_eq, Finset.sum_ite_eq']

/-- C6: for same-shape vectors, `sub` undoes `add` element-wise and `add`
is commutative. -/
theorem add_sub_round_trip_and_comm (a b : VecN R n) :
    VecN.sub (VecN.add a b) b = a ∧ VecN.add a b = VecN.add b a := by
  constructor <;> funext i <;> simp [VecN.add, VecN.sub, add_comm]

/-- C7: `normalize` divides every element by `length` (the square root of
the sum of squares); no zero-length special case exists, so the equation
holds for every input, including vectors of zero length, and the operand is
unchanged (the embedding is a pure function of `v`). -/
theorem normalize_divides_by_length (v : VecN ℝ n) (i : Fin n) :
    VecN.normalize v i = v i / Real.sqrt (∑ k, v k * v k) := by
  simp [VecN.normalize, VecN.length, Fin.sum_univ_def]

/-- C8: the 3-element cross product anti-commutes (component-wise negation)
and the cross product of a vector with itself is the zero vector. -/
theorem cross_antisymm_and_self_zero (a b : VecN R 3) :
    VecN.cross a b = (fun i => -(VecN.cross b a i))
    ∧ VecN.cross a a = VecN.new := by
  constructor <;> funext i <;> fin_cases i <;>
    simp [VecN.cross, VecN.new, Matrix.cons_val_zero, Matrix.cons_val_one,
      Matrix.head_cons, Matrix.cons_val_succ, Matrix.vecHead,
      Matrix.vecTail] <;>
    ring

/-- C9: each component of the embedded matrix-vector product (accumulated
from the default value `0`) equals the sum over `j` of
`self[i][j] * vec[j]`. -/
theorem mul_mat_vec_matches_sum (m : MatN R n) (vec : VecN R n) (i : Fin n) :
    MatN.mul_mat_vec m vec i = ∑ j, m i j * vec j :=
  mul_mat_vec_apply m vec i

/-- C10: building a matrix from a raw 2D array with `from_mat` (which
converts each raw row through `from_array`) and copying it back out with
`to_mat` returns exactly the original array. -/
theorem from_mat_to_mat_round_trip (d : Fin n → Fin n → R) :
    MatN.to_mat (MatN.from_mat d) = d := by
  have h1 : ∀ k, MatN.from_mat d k = VecN.from_array (d k) := by
    intro k
    unfold MatN.from_mat
    rw [foldl_update_apply (fun k => VecN.from_array (d k))]
    simp [List.mem_finRange]
  funext i j
  unfold MatN.to_mat
  rw [foldl_update_apply (fun k => VecN.to_arr (MatN.from_mat d k))]
  simp [List.mem_finRange, h1, VecN.to_arr, VecN.from_array]

end VMM
